import Mathlib

/-!
Verification of the Music-Genre-Identifier core against its specification.

The program (src/main.py) has three relevant parts:
* `predict_genre` (lines 10-18): a pure if/elif decision list mapping four
  spectral features (centroid c, rolloff r, bandwidth b, contrast ct) to a
  genre label string.
* `analyze_audio_file` (lines 21-28): decodes an audio file with
  librosa.load, computes an STFT magnitude matrix and four mean spectral
  statistics, and returns them; library calls are modelled as an explicit
  environment of functions.
* the rendering step (lines 130-133): converts the magnitude matrix to
  decibels relative to its own maximum via librosa.amplitude_to_db.

Features are embedded as rationals (ℚ): the Python floats in play are
decimal literals and the thresholds are exact decimal constants, so every
comparison in the code is faithfully represented over ℚ.
-/

/-- The feature quadruple (centroid, rolloff, bandwidth, contrast), in the
order `predict_genre` destructures it (src/main.py line 11). -/
abbrev FeatureVector := ℚ × ℚ × ℚ × ℚ

/-- Embedding of `predict_genre` (src/main.py lines 10-18).  Python's
chained comparison `1500 <= c < 2500` means `1500 ≤ c ∧ c < 2500`; each
`if ...: return` with the following tests is an if/else chain. -/
def predict_genre : FeatureVector → String
  | (c, r, b, ct) =>
    if c < 1500 ∧ r < 3000 then "Classical"
    else if 1500 ≤ c ∧ c < 2500 ∧ ct < 25 then "Jazz"
    else if 2200 ≤ c ∧ c < 4200 ∧ 4000 ≤ r ∧ r < 7000 ∧ ct < 22 ∧ b > 1500 then "Phonk"
    else if c ≥ 3500 ∧ ct ≥ 25 ∧ r ≥ 5000 then "Hip-Hop / Rap"
    else if c ≥ 5200 ∨ r > 7000 then "Rock"
    else if 2500 ≤ c ∧ c < 3800 ∧ r < 6000 then "Pop"
    else "Pop"

/-- Condition of rule 1 of the spec's decision table: c < 1500 AND r < 3000. -/
def rule1_cond : FeatureVector → Bool
  | (c, r, _, _) => decide (c < 1500 ∧ r < 3000)

/-- Condition of rule 2: 1500 ≤ c < 2500 AND t < 25. -/
def rule2_cond : FeatureVector → Bool
  | (c, _, _, ct) => decide (1500 ≤ c ∧ c < 2500 ∧ ct < 25)

/-- Condition of rule 3: 2200 ≤ c < 4200 AND 4000 ≤ r < 7000 AND t < 22 AND b > 1500. -/
def rule3_cond : FeatureVector → Bool
  | (c, r, b, ct) => decide (2200 ≤ c ∧ c < 4200 ∧ 4000 ≤ r ∧ r < 7000 ∧ ct < 22 ∧ b > 1500)

/-- Condition of rule 4: c ≥ 3500 AND t ≥ 25 AND r ≥ 5000. -/
def rule4_cond : FeatureVector → Bool
  | (c, r, _, ct) => decide (c ≥ 3500 ∧ ct ≥ 25 ∧ r ≥ 5000)

/-- Condition of rule 5: c ≥ 5200 OR r > 7000. -/
def rule5_cond : FeatureVector → Bool
  | (c, r, _, _) => decide (c ≥ 5200 ∨ r > 7000)

/-- Condition of rule 6: 2500 ≤ c < 3800 AND r < 6000. -/
def rule6_cond : FeatureVector → Bool
  | (c, r, _, _) => decide (2500 ≤ c ∧ c < 3800 ∧ r < 6000)

/-- The spec's seven-row decision table, rows 1-6 as (condition, label)
pairs in order; row 7 is the default handled by `firstMatch`. -/
def specTable : List ((FeatureVector → Bool) × String) :=
  [(rule1_cond, "Classical"),
   (rule2_cond, "Jazz"),
   (rule3_cond, "Phonk"),
   (rule4_cond, "Hip-Hop / Rap"),
   (rule5_cond, "Rock"),
   (rule6_cond, "Pop")]

/-- First-match-wins evaluation of an ordered rule list, with the spec's
rule-7 default "Pop" when no rule matches. -/
def firstMatch : List ((FeatureVector → Bool) × String) → FeatureVector → String
  | [], _ => "Pop"
  | (p, l) :: rest, f => if p f then l else firstMatch rest f

/-- The classifier as the spec describes it: the ordered decision table
evaluated top-to-bottom, first match wins, default Pop. -/
def classify_spec (f : FeatureVector) : String :=
  firstMatch specTable f

/-- Embedding of `predict_genre` with the rule-6 line (src/main.py line 17)
deleted, so inputs previously caught by rule 6 fall through to the default. -/
def predict_genre_no6 : FeatureVector → String
  | (c, r, b, ct) =>
    if c < 1500 ∧ r < 3000 then "Classical"
    else if 1500 ≤ c ∧ c < 2500 ∧ ct < 25 then "Jazz"
    else if 2200 ≤ c ∧ c < 4200 ∧ 4000 ≤ r ∧ r < 7000 ∧ ct < 22 ∧ b > 1500 then "Phonk"
    else if c ≥ 3500 ∧ ct ≥ 25 ∧ r ≥ 5000 then "Hip-Hop / Rap"
    else if c ≥ 5200 ∨ r > 7000 then "Rock"
    else "Pop"

/-- C1: `predict_genre` returns the label of the first matching rule of the
spec's seven-row decision table, rules evaluated in order 1-7 with
first-match-wins semantics and the comparison operators exactly as written,
rule 7 yielding Pop when no earlier rule matches. -/
theorem predict_genre_eq_decision_table (f : FeatureVector) :
    predict_genre f = classify_spec f := by
  obtain ⟨c, r, b, ct⟩ := f
  simp only [predict_genre, classify_spec, specTable, firstMatch,
    rule1_cond, rule2_cond, rule3_cond, rule4_cond, rule5_cond, rule6_cond,
    decide_eq_true_eq]

/-- C2: `predict_genre` is total and always returns one of the six labels
of the closed set, never an empty or other label. -/
theorem predict_genre_total_in_label_set (f : FeatureVector) :
    predict_genre f ∈ ["Classical", "Jazz", "Phonk", "Hip-Hop / Rap", "Rock", "Pop"] := by
  obtain ⟨c, r, b, ct⟩ := f
  simp only [predict_genre]
  split_ifs <;> simp

/-- C4 counterexample: the claim asserts a feature vector exists satisfying
both rule 1's condition (c < 1500) and rule 6's condition (2500 ≤ c); no
such vector exists, the two conditions are disjoint in the centroid. -/
theorem rule1_rule6_disjoint :
    ¬ ∃ f : FeatureVector, rule1_cond f = true ∧ rule6_cond f = true := by
  rintro ⟨⟨c, r, b, ct⟩, h1, h6⟩
  simp only [rule1_cond, rule6_cond, decide_eq_true_eq] at h1 h6
  linarith [h1.1, h6.1]

/-- C4 amended: rule 1's and rule 6's conditions are disjoint, so no vector
satisfies both; on every vector satisfying rule 1's condition,
`predict_genre` returns Classical (rule 1 fires first). -/
theorem rule1_fires_first (f : FeatureVector) (h : rule1_cond f = true) :
    predict_genre f = "Classical" ∧ rule6_cond f = false := by
  obtain ⟨c, r, b, ct⟩ := f
  simp only [rule1_cond, decide_eq_true_eq] at h
  refine ⟨?_, ?_⟩
  · simp only [predict_genre, if_pos h]
  · simp only [rule6_cond, decide_eq_false_iff_not]
    rintro ⟨h25, -, -⟩
    linarith [h.1]

/-- Witness for `rule1_fires_first` at (1000, 2000, 0, 0). -/
theorem rule1_fires_first_witness :
    predict_genre (1000, 2000, 0, 0) = "Classical" ∧
      rule6_cond (1000, 2000, 0, 0) = false :=
  rule1_fires_first (1000, 2000, 0, 0) (by decide)

/-- C5 counterexample: the claim says (3000, 100, 0, 0) matches none of
rules 1-6; in fact rule 6's condition (2500 ≤ c < 3800 AND r < 6000) holds
at that input. -/
theorem input_3000_matches_rule6 : rule6_cond (3000, 100, 0, 0) = true := by
  decide

/-- C5 amended: `predict_genre (3000, 100, 0, 0)` returns Pop; the input
matches none of rules 1-5 and is caught by rule 6 (not the rule-7 default). -/
theorem classify_3000_pop_via_rule6 :
    predict_genre (3000, 100, 0, 0) = "Pop" ∧
      rule1_cond (3000, 100, 0, 0) = false ∧
      rule2_cond (3000, 100, 0, 0) = false ∧
      rule3_cond (3000, 100, 0, 0) = false ∧
      rule4_cond (3000, 100, 0, 0) = false ∧
      rule5_cond (3000, 100, 0, 0) = false ∧
      rule6_cond (3000, 100, 0, 0) = true := by
  refine ⟨?_, by decide, by decide, by decide, by decide, by decide, by decide⟩
  norm_num [predict_genre]

/-- C6: `predict_genre (1500, 2999, 0, 0)` is not Classical (the centroid
boundary is excluded by the strict c < 1500), while
`predict_genre (1499.9, 2999, 0, 0)` is Classical. -/
theorem classify_boundary_1500 :
    predict_genre (1500, 2999, 0, 0) ≠ "Classical" ∧
      predict_genre ((14999 : ℚ) / 10, 2999, 0, 0) = "Classical" := by
  constructor
  · norm_num [predict_genre]
    decide
  · norm_num [predict_genre]

/-- C9: rule 6 is observationally redundant: the classifier with the rule-6
line removed is extensionally equal to `predict_genre`, since both rule 6
and the rule-7 default return Pop. -/
theorem rule6_redundant (f : FeatureVector) :
    predict_genre_no6 f = predict_genre f := by
  obtain ⟨c, r, b, ct⟩ := f
  simp only [predict_genre, predict_genre_no6]
  split_ifs <;> rfl

/-- C10: rule 2 shadows part of rule 3: on every vector satisfying rule 3's
Phonk condition with c < 2500, `predict_genre` returns Jazz, since such a
vector also satisfies rule 2's condition, which is evaluated first. -/
theorem rule2_shadows_rule3 (f : FeatureVector)
    (h3 : rule3_cond f = true) (hc : f.1 < 2500) :
    predict_genre f = "Jazz" := by
  obtain ⟨c, r, b, ct⟩ := f
  simp only [rule3_cond, decide_eq_true_eq] at h3
  obtain ⟨h22, -, -, -, ht, -⟩ := h3
  simp only at hc
  have h1 : ¬ (c < 1500 ∧ r < 3000) := by rintro ⟨h, -⟩; linarith
  have h2 : 1500 ≤ c ∧ c < 2500 ∧ ct < 25 := ⟨by linarith, hc, by linarith⟩
  simp only [predict_genre, if_neg h1, if_pos h2]

/-- Witness for `rule2_shadows_rule3` at (2300, 4500, 2000, 0). -/
theorem rule2_shadows_rule3_witness :
    predict_genre (2300, 4500, 2000, 0) = "Jazz" :=
  rule2_shadows_rule3 (2300, 4500, 2000, 0) (by decide) (by norm_num)

/-- Arithmetic mean of a list, modelling np.mean over a per-frame statistic
vector (src/main.py lines 24-27). -/
def mean (xs : List ℚ) : ℚ :=
  xs.sum / xs.length

/-- The library functions `analyze_audio_file` calls, as an explicit
environment: librosa.load (which may raise, modelled as Except with the
exception message), np.abs∘librosa.stft with n_fft=1024 and hop_length=256,
and the four per-frame spectral statistics.  A signal is a list of samples;
the sample rate is a natural number. -/
structure AudioEnv where
  librosa_load : String → ℚ → Except String (List ℚ × ℕ)
  stft_abs : List ℚ → List (List ℚ)
  spectral_centroid : List ℚ → ℕ → List ℚ
  spectral_rolloff : List ℚ → ℕ → List ℚ
  spectral_bandwidth : List ℚ → ℕ → List ℚ
  spectral_contrast : List (List ℚ) → ℕ → List ℚ

/-- Embedding of `analyze_audio_file` (src/main.py lines 21-28): load the
file (any exception propagates), take the STFT magnitude matrix, average
the four spectral statistics, and return (sr, D, features).  The function
branches on nothing but the loader's result: in particular it never
inspects the path's extension. -/
def analyze_audio_file (env : AudioEnv) (path : String) (duration : ℚ) :
    Except String (ℕ × List (List ℚ) × FeatureVector) := do
  let (y, sr) ← env.librosa_load path duration
  let D := env.stft_abs y
  let centroid := mean (env.spectral_centroid y sr)
  let rolloff := mean (env.spectral_rolloff y sr)
  let bandwidth := mean (env.spectral_bandwidth y sr)
  let contrast := mean (env.spectral_contrast D sr)
  return (sr, D, (centroid, rolloff, bandwidth, contrast))

/-- A concrete environment whose loader decodes every path, including .txt
ones, into a one-sample signal at 8000 Hz (librosa sniffs content, not
extensions, so a .txt file holding valid audio bytes decodes fine). -/
def permissiveEnv : AudioEnv where
  librosa_load := fun _ _ => .ok ([1], 8000)
  stft_abs := fun _ => [[1]]
  spectral_centroid := fun _ _ => [0]
  spectral_rolloff := fun _ _ => [0]
  spectral_bandwidth := fun _ _ => [0]
  spectral_contrast := fun _ _ => [0]

/-- C3 counterexample: a .txt path on which `analyze_audio_file` does not
fail at all, let alone with a tagged UnsupportedFormatError: the code has
no extension check and no UnsupportedFormatError, so when the decoder
accepts the bytes the analysis succeeds. -/
theorem analyze_txt_succeeds :
    analyze_audio_file permissiveEnv "song.txt" 10 =
      .ok (8000, [[1]], (0, 0, 0, 0)) := by
  simp only [analyze_audio_file, permissiveEnv, mean, List.sum_cons, List.sum_nil,
    List.length_cons, List.length_nil]
  norm_num

/-- C3 amended: `analyze_audio_file` performs no extension check: for every
path (so in particular every .txt path) it hands the file straight to the
decoder, and a decoder failure propagates as that lower-level error, never
as an UnsupportedFormatError tag (which does not exist in the code). -/
theorem analyze_propagates_decode_error (env : AudioEnv) (path : String)
    (duration : ℚ) (msg : String)
    (h : env.librosa_load path duration = .error msg) :
    analyze_audio_file env path duration = .error msg := by
  simp only [analyze_audio_file, h]
  rfl

/-- A concrete environment whose loader rejects every path with a decoder
message. -/
def failingEnv : AudioEnv where
  librosa_load := fun _ _ => .error "could not decode"
  stft_abs := fun _ => []
  spectral_centroid := fun _ _ => []
  spectral_rolloff := fun _ _ => []
  spectral_bandwidth := fun _ _ => []
  spectral_contrast := fun _ _ => []

/-- Witness for `analyze_propagates_decode_error` on a .txt path. -/
theorem analyze_propagates_decode_error_witness :
    analyze_audio_file failingEnv "notes.txt" 10 = .error "could not decode" :=
  analyze_propagates_decode_error failingEnv "notes.txt" 10 "could not decode" rfl

/-- C8: extraction is deterministic: two runs of `analyze_audio_file` whose
library calls answer identically on the given path and duration produce
identical results (sample rate, matrix and FeatureVector); the computation
is a pure function of its inputs, with no randomness. -/
theorem analyze_deterministic (e1 e2 : AudioEnv) (path : String) (d : ℚ)
    (hload : e1.librosa_load path d = e2.librosa_load path d)
    (hstft : ∀ y, e1.stft_abs y = e2.stft_abs y)
    (hcen : ∀ y sr, e1.spectral_centroid y sr = e2.spectral_centroid y sr)
    (hrol : ∀ y sr, e1.spectral_rolloff y sr = e2.spectral_rolloff y sr)
    (hban : ∀ y sr, e1.spectral_bandwidth y sr = e2.spectral_bandwidth y sr)
    (hcon : ∀ D sr, e1.spectral_contrast D sr = e2.spectral_contrast D sr) :
    analyze_audio_file e1 path d = analyze_audio_file e2 path d := by
  simp only [analyze_audio_file, hload]
  cases e2.librosa_load path d with
  | error msg => rfl
  | ok v => simp only [Except.bind, hstft, hcen, hrol, hban, hcon]

/-- Witness for `analyze_deterministic`: two runs over the same concrete
environment agree. -/
theorem analyze_deterministic_witness :
    analyze_audio_file permissiveEnv "clip.wav" 10 =
      analyze_audio_file permissiveEnv "clip.wav" 10 :=
  analyze_deterministic permissiveEnv permissiveEnv "clip.wav" 10 rfl
    (fun _ => rfl) (fun _ _ => rfl) (fun _ _ => rfl) (fun _ _ => rfl) (fun _ _ => rfl)

/-- Guarded logarithm application: `none` marks a numeric-domain fault
(logarithm of a non-positive value), the fault the rendering claim is
about.  The logarithm itself stays abstract, as a function parameter. -/
def safe_log10 (log10 : ℚ → ℚ) (x : ℚ) : Option ℚ :=
  if 0 < x then some (log10 x) else none

/-- One decibel entry: 20·log10(max(amin, s)) − 20·log10(max(amin, ref)),
with the reference term precomputed as `refdb`. -/
def db_entry (log10 : ℚ → ℚ) (amin refdb s : ℚ) : Option ℚ :=
  (safe_log10 log10 (max amin s)).map (fun l => 20 * l - 20 * refdb)

/-- Maximum of a list of decibel values (the list is nonempty in use). -/
def list_peak : List ℚ → ℚ
  | [] => 0
  | x :: xs => xs.foldl max x

/-- Models librosa.amplitude_to_db(D, ref=np.max) as invoked by the
rendering step (src/main.py line 131): magnitudes are floored at
amin = 1e-5 before the logarithm on both the entries and the reference
(the matrix's own maximum), giving S_db = 20·log10(max(amin, s)) −
20·log10(max(amin, ref)); the result is then floored at its peak minus
top_db = 80.  The matrix is flattened to its list of magnitudes; a `none`
result would be a numeric-domain fault reaching the logarithm. -/
def amplitude_to_db (log10 : ℚ → ℚ) (S : List ℚ) : Option (List ℚ) := do
  let amin : ℚ := 1 / 100000
  let top_db : ℚ := 80
  let ref := S.foldr max 0
  let refdb ← safe_log10 log10 (max amin ref)
  let dbs ← S.mapM (db_entry log10 amin refdb)
  some (dbs.map (fun d => max d (list_peak dbs - top_db)))

theorem foldr_max_replicate_zero (n : ℕ) :
    (List.replicate n (0 : ℚ)).foldr max 0 = 0 := by
  induction n with
  | zero => rfl
  | succ n ih => simp [List.replicate_succ, ih]

theorem foldl_max_zero_replicate_zero (n : ℕ) :
    List.foldl max (0 : ℚ) (List.replicate n 0) = 0 := by
  induction n with
  | zero => rfl
  | succ n ih => simp [List.replicate_succ, ih]

theorem mapM_option_replicate {α β : Type} (f : α → Option β) (a : α) (b : β)
    (h : f a = some b) (n : ℕ) :
    (List.replicate n a).mapM f = some (List.replicate n b) := by
  induction n with
  | zero => rfl
  | succ n ih =>
    rw [List.replicate_succ, List.mapM_cons, h, ih]
    rfl

/-- C7: on an all-zero-amplitude spectral matrix the decibel conversion with
ref = matrix maximum raises no numeric-domain error: every magnitude and
the zero reference are clamped up to amin before the logarithm, every entry
comes out 0 dB, and the final floor at peak − 80 dB leaves them there —
for any logarithm function and any positive matrix size. -/
theorem amplitude_to_db_all_zero_safe (log10 : ℚ → ℚ) (n : ℕ) (h : 0 < n) :
    amplitude_to_db log10 (List.replicate n 0) = some (List.replicate n 0) := by
  have hamin : (0 : ℚ) < 1 / 100000 := by norm_num
  have hmax : max (1 / 100000 : ℚ) 0 = 1 / 100000 := max_eq_left (le_of_lt hamin)
  have hentry : db_entry log10 (1 / 100000) (log10 (1 / 100000)) 0 = some 0 := by
    simp [db_entry, safe_log10, hmax, hamin]
  obtain ⟨m, rfl⟩ : ∃ m, n = m + 1 := ⟨n - 1, (Nat.succ_pred_eq_of_pos h).symm⟩
  simp only [amplitude_to_db, foldr_max_replicate_zero, hmax, safe_log10,
    if_pos hamin, Option.bind_eq_bind, Option.some_bind,
    mapM_option_replicate _ _ _ hentry]
  simp [list_peak, List.replicate_succ, foldl_max_zero_replicate_zero]

/-- Witness for `amplitude_to_db_all_zero_safe` at the identity logarithm
and a 3-entry matrix. -/
theorem amplitude_to_db_all_zero_safe_witness :
    amplitude_to_db id (List.replicate 3 0) = some (List.replicate 3 0) :=
  amplitude_to_db_all_zero_safe id 3 (by decide)
